import Mathlib

/-!
Verification of `src/dup2.cpp` (the r2dup2 repository): an Rcpp utility that
redirects the standard-error stream of the process to a file and later
restores it.

The C++ code is a straight-line sequence of POSIX syscalls (`dup`, `open`,
`dup2`, `close`) plus an oflag-resolution helper.  We embed it shallowly:

* the OS is a state `OSState`: a file-descriptor table mapping descriptor
  numbers to the resource (open file description) they reference, the set of
  existing files, an oracle `pathErr` for path-level open failures
  (permission denied, missing directory component, ...), a descriptor limit
  `maxFds`, and the current `errno`;
* each syscall is a function `OSState → ... → Int × OSState` returning the
  C result value (negative on failure) and the next state, mirroring POSIX:
  `dup`/`open` allocate a fresh descriptor and fail with `EMFILE` at the
  limit, `open` without `O_CREAT` fails with `ENOENT` on an absent file,
  `dup2` fails with `EBADF` on an invalid source descriptor and otherwise
  points the target slot at the source's resource and returns the target;
* `Rcpp::stop` (which throws, aborting the function) is modelled by an
  `Except CError` result paired with the state reached when the stop fired;
  the two format strings of the C++ file become the two `CError`
  constructors, carrying the syscall name, the enclosing function name and
  the errno value that the message interpolates.
-/

namespace Rdup2

/-- What a file descriptor refers to: either the original standard-error
destination (the R console), or an open file description created by an
`open` call, remembering the path, the oflags and the permission argument
of that call. -/
inductive Resource where
  | console : Resource
  | file (path : String) (flags : Nat) (perm : Nat) : Resource
deriving DecidableEq

/-- The process's file-descriptor table: descriptor number ↦ resource. -/
abbrev FdTable := List (Nat × Resource)

/-- Look a descriptor up in the table (first binding wins). -/
def lookupFd : FdTable → Nat → Option Resource
  | [], _ => none
  | (k, r) :: t, fd => if k = fd then some r else lookupFd t fd

/-- Remove every binding of a descriptor from the table. -/
def removeFd : FdTable → Nat → FdTable
  | [], _ => []
  | (k, r) :: t, fd => if k = fd then removeFd t fd else (k, r) :: removeFd t fd

/-- Point a descriptor at a resource. -/
def setFd (t : FdTable) (fd : Nat) (r : Resource) : FdTable :=
  (fd, r) :: removeFd t fd

/-- Largest descriptor number bound in the table (0 for the empty table). -/
def maxKey : FdTable → Nat
  | [] => 0
  | (k, _) :: t => max k (maxKey t)

/-- A descriptor number that is not bound in the table, used when `dup` or
`open` allocate a new descriptor. -/
def freshFd (t : FdTable) : Nat :=
  maxKey t + 1

/-- The OS state seen by the syscalls of `dup2.cpp`. -/
structure OSState where
  /-- The file-descriptor table of the process. -/
  table : FdTable
  /-- Descriptor limit: allocation of a descriptor ≥ `maxFds` fails
  with `EMFILE` (descriptor-table exhaustion). -/
  maxFds : Nat
  /-- The set of paths at which a file currently exists. -/
  files : List String
  /-- Path-level failure oracle for `open`: `some e` means any open of this
  path fails with errno `e` (e.g. a missing directory component or a
  permission error), `none` means the path itself is openable. -/
  pathErr : String → Option Nat
  /-- The current value of the C `errno` variable. -/
  errno : Nat

/-- `O_WRONLY` of `fcntl.h`. -/
def O_WRONLY : Nat := 1
/-- `O_CREAT` of `fcntl.h`. -/
def O_CREAT : Nat := 64
/-- `O_TRUNC` of `fcntl.h`. -/
def O_TRUNC : Nat := 512
/-- `O_APPEND` of `fcntl.h`. -/
def O_APPEND : Nat := 1024
/-- `S_IRUSR` (owner read, 0o400). -/
def S_IRUSR : Nat := 256
/-- `S_IWUSR` (owner write, 0o200). -/
def S_IWUSR : Nat := 128
/-- `S_IRGRP` (group read, 0o40). -/
def S_IRGRP : Nat := 32
/-- `S_IROTH` (other read, 0o4). -/
def S_IROTH : Nat := 4
/-- The standard-error descriptor number. -/
def STDERR_FILENO : Nat := 2
/-- errno `ENOENT` (no such file or directory). -/
def ENOENT : Nat := 2
/-- errno `EBADF` (bad file descriptor). -/
def EBADF : Nat := 9
/-- errno `EMFILE` (too many open files). -/
def EMFILE : Nat := 24

/-- POSIX `dup(fd)`: allocate a fresh descriptor referencing the same
resource as `fd`.  Fails with `EBADF` if `fd` is not open, with `EMFILE`
if the descriptor table is exhausted. -/
def sysDup (s : OSState) (fd : Nat) : Int × OSState :=
  match lookupFd s.table fd with
  | none => (-1, { s with errno := EBADF })
  | some r =>
    if s.maxFds ≤ freshFd s.table then
      (-1, { s with errno := EMFILE })
    else
      ((freshFd s.table : Int),
       { s with table := setFd s.table (freshFd s.table) r })

/-- POSIX `open(path, flags, perm)`: fails with the oracle's errno if the
path itself is not openable; fails with `ENOENT` if the file does not exist
and `O_CREAT` is not among the flags; otherwise allocates a fresh
descriptor for a new open file description (failing with `EMFILE` at the
descriptor limit), creating the file if it was absent. -/
def sysOpen (s : OSState) (path : String) (flags : Nat) (perm : Nat) :
    Int × OSState :=
  match s.pathErr path with
  | some e => (-1, { s with errno := e })
  | none =>
    if s.files.contains path || ((flags &&& O_CREAT) != 0) then
      if s.maxFds ≤ freshFd s.table then
        (-1, { s with errno := EMFILE })
      else
        ((freshFd s.table : Int),
         { s with
            table := setFd s.table (freshFd s.table) (Resource.file path flags perm),
            files := if s.files.contains path then s.files else path :: s.files })
    else
      (-1, { s with errno := ENOENT })

/-- POSIX `dup2(oldfd, newfd)`: fails with `EBADF` if `oldfd` is not a
valid open descriptor; otherwise points slot `newfd` at `oldfd`'s resource
and returns `newfd`. -/
def sysDup2 (s : OSState) (oldfd : Int) (newfd : Nat) : Int × OSState :=
  if oldfd < 0 then
    (-1, { s with errno := EBADF })
  else
    match lookupFd s.table oldfd.toNat with
    | none => (-1, { s with errno := EBADF })
    | some r => ((newfd : Int), { s with table := setFd s.table newfd r })

/-- POSIX `close(fd)` (the C++ code ignores its return value): remove the
descriptor from the table. -/
def sysClose (s : OSState) (fd : Nat) : OSState :=
  { s with table := removeFd s.table fd }

/-- An `Rcpp::stop` call of `dup2.cpp`, rendered structurally:
`unrecognizedMode m` is `stop("Unrecognized mode: %s", m)`;
`syscallFailure call fn e` is
`stop("Error while calling <call> in <fn>: errno=%d", e)`. -/
inductive CError where
  | unrecognizedMode (mode : String) : CError
  | syscallFailure (call : String) (fn : String) (errnoVal : Nat) : CError
deriving DecidableEq

/-- `int get_oflag(String mode)` of `dup2.cpp` (lines 42–53): `"w"` ↦
`O_WRONLY | O_CREAT`, `"a"` ↦ `O_WRONLY | O_APPEND`, anything else stops
with "Unrecognized mode". -/
def get_oflagStr (mode : String) : Except CError Nat :=
  if mode = "w" then
    Except.ok (O_WRONLY ||| O_CREAT)
  else if mode = "a" then
    Except.ok (O_WRONLY ||| O_APPEND)
  else
    Except.error (CError.unrecognizedMode mode)

/-- `int get_oflag(bool append)` of `dup2.cpp` (lines 64–68): picks the
mode string `"a"` or `"w"` and delegates to the string overload. -/
def get_oflagBool (append : Bool) : Except CError Nat :=
  get_oflagStr (if append then "a" else "w")

/-- `begin_redirect_stderr(filepath, append)` of `dup2.cpp` (lines 86–113):
dup stderr (stop on failure), resolve the oflag, open the file with mode
`S_IRUSR | S_IWUSR | S_IRGRP | S_IROTH` (stop on failure), dup2 the new
descriptor onto stderr (stop on failure), close the new descriptor, return
the saved copy of stderr. -/
def begin_redirect_stderr (filepath : String) (append : Bool) (s : OSState) :
    Except CError Int × OSState :=
  match sysDup s STDERR_FILENO with
  | (old_stderr, s1) =>
    if old_stderr < 0 then
      (Except.error (CError.syscallFailure "dup" "begin_redirect_stderr" s1.errno), s1)
    else
      match get_oflagBool append with
      | Except.error e => (Except.error e, s1)
      | Except.ok oflag =>
        match sysOpen s1 filepath oflag (S_IRUSR ||| S_IWUSR ||| S_IRGRP ||| S_IROTH) with
        | (fd, s2) =>
          if fd < 0 then
            (Except.error (CError.syscallFailure "open" "begin_redirect_stderr" s2.errno), s2)
          else
            match sysDup2 s2 fd STDERR_FILENO with
            | (res, s3) =>
              if res < 0 then
                (Except.error (CError.syscallFailure "dup2" "begin_redirect_stderr" s3.errno), s3)
              else
                (Except.ok old_stderr, sysClose s3 fd.toNat)

/-- `end_redirect_stderr(old_stderr)` of `dup2.cpp` (lines 130–138):
dup2 the saved descriptor back onto stderr (stop on failure), close the
saved descriptor, return the dup2 result. -/
def end_redirect_stderr (old_stderr : Int) (s : OSState) :
    Except CError Int × OSState :=
  match sysDup2 s old_stderr STDERR_FILENO with
  | (res, s1) =>
    if res < 0 then
      (Except.error (CError.syscallFailure "dup2" "end_redirect_stderr" s1.errno), s1)
    else
      (Except.ok res, sysClose s1 old_stderr.toNat)

/-! ### Table lemmas -/

theorem lookupFd_removeFd_ne (t : FdTable) (fd n : Nat) (h : n ≠ fd) :
    lookupFd (removeFd t fd) n = lookupFd t n := by
  induction t with
  | nil => rfl
  | cons p t ih =>
    obtain ⟨k, r⟩ := p
    by_cases hk : k = fd
    · subst hk
      simp only [removeFd, if_pos rfl, lookupFd, if_neg (Ne.symm h)]
      exact ih
    · simp only [removeFd, if_neg hk, lookupFd]
      by_cases hkn : k = n
      · rw [if_pos hkn, if_pos hkn]
      · rw [if_neg hkn, if_neg hkn]
        exact ih

theorem lookupFd_setFd_self (t : FdTable) (fd : Nat) (r : Resource) :
    lookupFd (setFd t fd r) fd = some r := by
  simp [setFd, lookupFd]

theorem lookupFd_setFd_ne (t : FdTable) (fd : Nat) (r : Resource) (n : Nat)
    (h : n ≠ fd) :
    lookupFd (setFd t fd r) n = lookupFd t n := by
  simp only [setFd, lookupFd]
  rw [if_neg (fun hkn => h hkn.symm), lookupFd_removeFd_ne t fd n h]

theorem lookupFd_none_of_maxKey_lt (t : FdTable) (n : Nat) (h : maxKey t < n) :
    lookupFd t n = none := by
  induction t with
  | nil => rfl
  | cons p t ih =>
    obtain ⟨k, r⟩ := p
    simp only [maxKey, max_lt_iff] at h
    simp only [lookupFd]
    rw [if_neg (fun hk => absurd hk (by omega)), ih h.2]

theorem lookupFd_freshFd (t : FdTable) : lookupFd t (freshFd t) = none :=
  lookupFd_none_of_maxKey_lt t (freshFd t) (Nat.lt_succ_self _)

theorem freshFd_ne_of_lookup_some (t : FdTable) (n : Nat) (r : Resource)
    (h : lookupFd t n = some r) : freshFd t ≠ n := by
  intro heq
  rw [← heq, lookupFd_freshFd] at h
  exact Option.noConfusion h

/-! ### Syscall success-shape lemmas -/

theorem sysDup_ok (s : OSState) (fd : Nat) (r : Resource)
    (h : lookupFd s.table fd = some r) (hm : freshFd s.table < s.maxFds) :
    sysDup s fd =
      ((freshFd s.table : Int),
       { s with table := setFd s.table (freshFd s.table) r }) := by
  unfold sysDup
  rw [h]
  exact if_neg (Nat.not_le.mpr hm)

theorem sysDup_ok_inv (s : OSState) (fd : Nat) (d : Int) (s1 : OSState)
    (h : sysDup s fd = (d, s1)) (hd : ¬ d < 0) :
    ∃ r, lookupFd s.table fd = some r ∧ d = (freshFd s.table : Int) ∧
      s1 = { s with table := setFd s.table (freshFd s.table) r } := by
  unfold sysDup at h
  split at h
  · injection h with h1 h2
    omega
  · rename_i r heq
    split at h
    · injection h with h1 h2
      omega
    · injection h with h1 h2
      exact ⟨r, heq, h1.symm, h2.symm⟩

theorem sysDup_lookup_preserved (s : OSState) (fd n : Nat) (r : Resource)
    (h : lookupFd s.table n = some r) :
    lookupFd (sysDup s fd).2.table n = some r := by
  unfold sysDup
  split
  · exact h
  · split
    · exact h
    · simp only []
      rw [lookupFd_setFd_ne _ _ _ _ (Ne.symm (freshFd_ne_of_lookup_some _ _ _ h))]
      exact h

theorem sysOpen_ok_inv (s : OSState) (p : String) (fl pm : Nat) (fd : Int)
    (s2 : OSState) (h : sysOpen s p fl pm = (fd, s2)) (hfd : ¬ fd < 0) :
    fd = (freshFd s.table : Int) ∧
      s2 = { s with
              table := setFd s.table (freshFd s.table) (Resource.file p fl pm),
              files := if s.files.contains p then s.files else p :: s.files } := by
  unfold sysOpen at h
  split at h
  · injection h with h1 h2
    omega
  · split at h
    · split at h
      · injection h with h1 h2
        omega
      · injection h with h1 h2
        exact ⟨h1.symm, h2.symm⟩
    · injection h with h1 h2
      omega

theorem sysOpen_fail_inv (s : OSState) (p : String) (fl pm : Nat) (fd : Int)
    (s2 : OSState) (h : sysOpen s p fl pm = (fd, s2)) (hfd : fd < 0) :
    s2.table = s.table ∧ s2.files = s.files ∧
      (s2.errno = EMFILE ∨ s2.errno = ENOENT ∨ s.pathErr p = some s2.errno) := by
  unfold sysOpen at h
  split at h
  · rename_i e heq
    injection h with h1 h2
    subst h2
    exact ⟨rfl, rfl, Or.inr (Or.inr heq)⟩
  · split at h
    · split at h
      · injection h with h1 h2
        subst h2
        exact ⟨rfl, rfl, Or.inl rfl⟩
      · injection h with h1 h2
        omega
    · injection h with h1 h2
      subst h2
      exact ⟨rfl, rfl, Or.inr (Or.inl rfl)⟩

theorem sysDup2_ok_inv (s : OSState) (old : Int) (newfd : Nat) (res : Int)
    (s3 : OSState) (h : sysDup2 s old newfd = (res, s3)) (hres : ¬ res < 0) :
    ∃ r, ¬ old < 0 ∧ lookupFd s.table old.toNat = some r ∧
      res = (newfd : Int) ∧ s3 = { s with table := setFd s.table newfd r } := by
  unfold sysDup2 at h
  split at h
  · injection h with h1 h2
    omega
  · rename_i hneg
    split at h
    · injection h with h1 h2
      omega
    · rename_i r heq
      injection h with h1 h2
      exact ⟨r, hneg, heq, h1.symm, h2.symm⟩

theorem sysDup2_ok (s : OSState) (old : Int) (newfd : Nat) (r : Resource)
    (h0 : ¬ old < 0) (h : lookupFd s.table old.toNat = some r) :
    sysDup2 s old newfd =
      ((newfd : Int), { s with table := setFd s.table newfd r }) := by
  unfold sysDup2
  rw [if_neg h0, h]

theorem sysDup2_invalid (s : OSState) (old : Int) (newfd : Nat)
    (h : old < 0 ∨ lookupFd s.table old.toNat = none) :
    sysDup2 s old newfd = (-1, { s with errno := EBADF }) := by
  unfold sysDup2
  by_cases hneg : old < 0
  · rw [if_pos hneg]
  · rw [if_neg hneg]
    cases h with
    | inl h => exact absurd h hneg
    | inr h => rw [h]

/-! ### The individual steps of `begin_redirect_stderr`, named so that the
claims about its control flow can refer to them. -/

/-- The permission argument `S_IRUSR | S_IWUSR | S_IRGRP | S_IROTH` that
`begin_redirect_stderr` passes to `open` (line 97 of `dup2.cpp`). -/
def begin_redirect_mode : Nat := S_IRUSR ||| S_IWUSR ||| S_IRGRP ||| S_IROTH

/-- Step 1 of `begin_redirect_stderr`: the `dup(STDERR_FILENO)` call. -/
def beginDup (s : OSState) : Int × OSState :=
  sysDup s STDERR_FILENO

/-- The oflag that `get_oflag(bool)` resolves for `append` (0 is a dummy
for the unreachable error case). -/
def beginOflag (append : Bool) : Nat :=
  ((get_oflagBool append).toOption).getD 0

/-- Step 2 of `begin_redirect_stderr`: the `open(filepath, oflag, mode)`
call, performed on the state left by the `dup`. -/
def beginOpen (filepath : String) (append : Bool) (s : OSState) :
    Int × OSState :=
  sysOpen (beginDup s).2 filepath (beginOflag append) begin_redirect_mode

/-- Step 3 of `begin_redirect_stderr`: the `dup2(fd, STDERR_FILENO)` call,
performed on the state left by the `open`. -/
def beginDup2 (filepath : String) (append : Bool) (s : OSState) :
    Int × OSState :=
  sysDup2 (beginOpen filepath append s).2 (beginOpen filepath append s).1
    STDERR_FILENO

theorem get_oflagBool_eq (a : Bool) :
    get_oflagBool a = Except.ok (beginOflag a) := by
  cases a <;> rfl

theorem begin_dup_fail (p : String) (a : Bool) (s : OSState) (d : Int)
    (s1 : OSState) (hd : sysDup s STDERR_FILENO = (d, s1)) (h0 : d < 0) :
    begin_redirect_stderr p a s =
      (Except.error (CError.syscallFailure "dup" "begin_redirect_stderr" s1.errno),
       s1) := by
  unfold begin_redirect_stderr
  rw [hd]
  simp [h0]

theorem begin_open_fail (p : String) (a : Bool) (s : OSState) (d : Int)
    (s1 : OSState) (fd : Int) (s2 : OSState)
    (hd : sysDup s STDERR_FILENO = (d, s1)) (h0 : ¬ d < 0)
    (ho : sysOpen s1 p (beginOflag a) begin_redirect_mode = (fd, s2))
    (hf : fd < 0) :
    begin_redirect_stderr p a s =
      (Except.error (CError.syscallFailure "open" "begin_redirect_stderr" s2.errno),
       s2) := by
  unfold begin_redirect_stderr
  rw [hd]
  rw [get_oflagBool_eq a]
  rw [show (S_IRUSR ||| S_IWUSR ||| S_IRGRP ||| S_IROTH) = begin_redirect_mode from rfl]
  simp [h0, ho, hf]

theorem begin_dup2_fail (p : String) (a : Bool) (s : OSState) (d : Int)
    (s1 : OSState) (fd : Int) (s2 : OSState) (res : Int) (s3 : OSState)
    (hd : sysDup s STDERR_FILENO = (d, s1)) (h0 : ¬ d < 0)
    (ho : sysOpen s1 p (beginOflag a) begin_redirect_mode = (fd, s2))
    (hf : ¬ fd < 0)
    (h2 : sysDup2 s2 fd STDERR_FILENO = (res, s3)) (hr : res < 0) :
    begin_redirect_stderr p a s =
      (Except.error (CError.syscallFailure "dup2" "begin_redirect_stderr" s3.errno),
       s3) := by
  unfold begin_redirect_stderr
  rw [hd]
  rw [get_oflagBool_eq a]
  rw [show (S_IRUSR ||| S_IWUSR ||| S_IRGRP ||| S_IROTH) = begin_redirect_mode from rfl]
  simp [h0, ho, hf, h2, hr]

theorem begin_ok_eq (p : String) (a : Bool) (s : OSState) (d : Int)
    (s1 : OSState) (fd : Int) (s2 : OSState) (res : Int) (s3 : OSState)
    (hd : sysDup s STDERR_FILENO = (d, s1)) (h0 : ¬ d < 0)
    (ho : sysOpen s1 p (beginOflag a) begin_redirect_mode = (fd, s2))
    (hf : ¬ fd < 0)
    (h2 : sysDup2 s2 fd STDERR_FILENO = (res, s3)) (hr : ¬ res < 0) :
    begin_redirect_stderr p a s = (Except.ok d, sysClose s3 fd.toNat) := by
  unfold begin_redirect_stderr
  rw [hd]
  rw [get_oflagBool_eq a]
  rw [show (S_IRUSR ||| S_IWUSR ||| S_IRGRP ||| S_IROTH) = begin_redirect_mode from rfl]
  simp [h0, ho, hf, h2, hr]

theorem end_fail_eq (old : Int) (s : OSState) (res : Int) (s1 : OSState)
    (hr : sysDup2 s old STDERR_FILENO = (res, s1)) (h0 : res < 0) :
    end_redirect_stderr old s =
      (Except.error (CError.syscallFailure "dup2" "end_redirect_stderr" s1.errno),
       s1) := by
  unfold end_redirect_stderr
  rw [hr]
  simp [h0]

theorem end_ok_eq (old : Int) (s : OSState) (res : Int) (s1 : OSState)
    (hr : sysDup2 s old STDERR_FILENO = (res, s1)) (h0 : ¬ res < 0) :
    end_redirect_stderr old s = (Except.ok res, sysClose s1 old.toNat) := by
  unfold end_redirect_stderr
  rw [hr]
  simp [h0]

theorem end_ok_inv (old : Int) (s : OSState) (r : Int) (s2 : OSState)
    (h : end_redirect_stderr old s = (Except.ok r, s2)) :
    ∃ rr, ¬ old < 0 ∧ lookupFd s.table old.toNat = some rr ∧ r = 2 ∧
      s2 = sysClose { s with table := setFd s.table STDERR_FILENO rr }
             old.toNat := by
  rcases hr : sysDup2 s old STDERR_FILENO with ⟨res, s1⟩
  by_cases h0 : res < 0
  · rw [end_fail_eq old s res s1 hr h0] at h
    injection h with h1 h2
    exact absurd h1 (by simp)
  · rw [end_ok_eq old s res s1 hr h0] at h
    obtain ⟨rr, hneg, hl, hres, hs1⟩ := sysDup2_ok_inv s old STDERR_FILENO res s1 hr h0
    injection h with h1 h2
    injection h1 with h1
    refine ⟨rr, hneg, hl, ?_, ?_⟩
    · rw [← h1, hres]
      rfl
    · rw [← h2, hs1]

/-- Complete case analysis of `begin_redirect_stderr`: exactly one of the
three syscalls fails first, or all succeed and the saved descriptor is
returned with the opened descriptor closed. -/
theorem begin_cases (p : String) (a : Bool) (s : OSState) :
    ((beginDup s).1 < 0 ∧
      begin_redirect_stderr p a s =
        (Except.error (CError.syscallFailure "dup" "begin_redirect_stderr"
          (beginDup s).2.errno), (beginDup s).2))
  ∨ (¬ (beginDup s).1 < 0 ∧ (beginOpen p a s).1 < 0 ∧
      begin_redirect_stderr p a s =
        (Except.error (CError.syscallFailure "open" "begin_redirect_stderr"
          (beginOpen p a s).2.errno), (beginOpen p a s).2))
  ∨ (¬ (beginDup s).1 < 0 ∧ ¬ (beginOpen p a s).1 < 0 ∧ (beginDup2 p a s).1 < 0 ∧
      begin_redirect_stderr p a s =
        (Except.error (CError.syscallFailure "dup2" "begin_redirect_stderr"
          (beginDup2 p a s).2.errno), (beginDup2 p a s).2))
  ∨ (¬ (beginDup s).1 < 0 ∧ ¬ (beginOpen p a s).1 < 0 ∧ ¬ (beginDup2 p a s).1 < 0 ∧
      begin_redirect_stderr p a s =
        (Except.ok (beginDup s).1,
         sysClose (beginDup2 p a s).2 (beginOpen p a s).1.toNat)) := by
  rcases hd : sysDup s STDERR_FILENO with ⟨d, sA⟩
  have hbd : beginDup s = (d, sA) := by
    rw [beginDup, hd]
  by_cases h0 : d < 0
  · left
    rw [hbd]
    exact ⟨h0, begin_dup_fail p a s d sA hd h0⟩
  · rcases ho : sysOpen sA p (beginOflag a) begin_redirect_mode with ⟨fd, sB⟩
    have hbo : beginOpen p a s = (fd, sB) := by
      rw [beginOpen, hbd]
      exact ho
    by_cases hf : fd < 0
    · right; left
      rw [hbd, hbo]
      exact ⟨h0, hf, begin_open_fail p a s d sA fd sB hd h0 ho hf⟩
    · rcases h2 : sysDup2 sB fd STDERR_FILENO with ⟨res, sC⟩
      have hb2 : beginDup2 p a s = (res, sC) := by
        rw [beginDup2, hbo]
        exact h2
      by_cases hres : res < 0
      · right; right; left
        rw [hbd, hbo, hb2]
        exact ⟨h0, hf, hres, begin_dup2_fail p a s d sA fd sB res sC hd h0 ho hf h2 hres⟩
      · right; right; right
        rw [hbd, hbo, hb2]
        exact ⟨h0, hf, hres, begin_ok_eq p a s d sA fd sB res sC hd h0 ho hf h2 hres⟩

/-- After a successful `begin_redirect_stderr` from a state whose
standard-error slot holds `r0`: the returned token is a non-negative
descriptor distinct from the standard-error slot, it still references
`r0`, and the standard-error slot references the freshly opened file. -/
theorem begin_ok_lookups (p : String) (a : Bool) (s : OSState) (tok : Int)
    (s1 : OSState) (r0 : Resource)
    (hN : lookupFd s.table STDERR_FILENO = some r0)
    (h : begin_redirect_stderr p a s = (Except.ok tok, s1)) :
    ¬ tok < 0 ∧ tok.toNat ≠ STDERR_FILENO ∧
      lookupFd s1.table tok.toNat = some r0 ∧
      lookupFd s1.table STDERR_FILENO =
        some (Resource.file p (beginOflag a) begin_redirect_mode) := by
  rcases hd : sysDup s STDERR_FILENO with ⟨d, sA⟩
  by_cases h0 : d < 0
  · rw [begin_dup_fail p a s d sA hd h0] at h
    injection h with h1 h2
    exact absurd h1 (by simp)
  · rcases ho : sysOpen sA p (beginOflag a) begin_redirect_mode with ⟨fd, sB⟩
    by_cases hf : fd < 0
    · rw [begin_open_fail p a s d sA fd sB hd h0 ho hf] at h
      injection h with h1 h2
      exact absurd h1 (by simp)
    · rcases h2 : sysDup2 sB fd STDERR_FILENO with ⟨res, sC⟩
      by_cases hres : res < 0
      · rw [begin_dup2_fail p a s d sA fd sB res sC hd h0 ho hf h2 hres] at h
        injection h with h1 h2
        exact absurd h1 (by simp)
      · rw [begin_ok_eq p a s d sA fd sB res sC hd h0 ho hf h2 hres] at h
        injection h with htok hs1
        injection htok with htok
        subst htok
        subst hs1
        obtain ⟨r, hlr, hdval, hsA⟩ := sysDup_ok_inv s STDERR_FILENO d sA hd h0
        rw [hN] at hlr
        injection hlr with hrr
        subst hrr
        obtain ⟨hfdval, hsB⟩ :=
          sysOpen_ok_inv sA p (beginOflag a) begin_redirect_mode fd sB ho hf
        obtain ⟨rf, hfneg, hlf, hresval, hsC⟩ :=
          sysDup2_ok_inv sB fd STDERR_FILENO res sC h2 hres
        subst hsA
        subst hsB
        subst hsC
        have hm2 : freshFd s.table ≠ STDERR_FILENO :=
          freshFd_ne_of_lookup_some _ _ _ hN
        have hA2 : lookupFd (setFd s.table (freshFd s.table) r0) STDERR_FILENO
            = some r0 := by
          rw [lookupFd_setFd_ne _ _ _ _ (Ne.symm hm2)]
          exact hN
        have hA1 : lookupFd (setFd s.table (freshFd s.table) r0) (freshFd s.table)
            = some r0 := lookupFd_setFd_self _ _ _
        have hn2S : freshFd (setFd s.table (freshFd s.table) r0) ≠ STDERR_FILENO :=
          freshFd_ne_of_lookup_some _ _ _ hA2
        have hn2n1 : freshFd (setFd s.table (freshFd s.table) r0) ≠ freshFd s.table :=
          freshFd_ne_of_lookup_some _ _ _ hA1
        have hdn : d.toNat = freshFd s.table := by
          rw [hdval]
          omega
        have hfdn : fd.toNat = freshFd (setFd s.table (freshFd s.table) r0) := by
          dsimp only at hfdval
          rw [hfdval]
          omega
        -- identify the resource moved onto the standard-error slot
        have hrf : rf = Resource.file p (beginOflag a) begin_redirect_mode := by
          dsimp only at hlf
          rw [hfdn, lookupFd_setFd_self] at hlf
          injection hlf with hlf
          exact hlf.symm
        subst hrf
        refine ⟨by omega, by rw [hdn]; exact hm2, ?_, ?_⟩
        · dsimp only [sysClose]
          rw [hdn, hfdn]
          rw [lookupFd_removeFd_ne _ _ _ (Ne.symm hn2n1)]
          rw [lookupFd_setFd_ne _ _ _ _ hm2]
          rw [lookupFd_setFd_ne _ _ _ _ (Ne.symm hn2n1)]
          exact hA1
        · dsimp only [sysClose]
          rw [hfdn]
          rw [lookupFd_removeFd_ne _ _ _ (Ne.symm hn2S)]
          exact lookupFd_setFd_self _ _ _

theorem sysOpen_absent_no_creat (s : OSState) (p : String) (fl pm : Nat)
    (hpe : s.pathErr p = none) (habs : s.files.contains p = false)
    (hcre : fl &&& O_CREAT = 0) :
    sysOpen s p fl pm = (-1, { s with errno := ENOENT }) := by
  unfold sysOpen
  split
  · rename_i e heq
    rw [hpe] at heq
    exact absurd heq (by simp)
  · split
    · rename_i hcond
      rw [habs, hcre] at hcond
      exact absurd hcond (by decide)
    · rfl

/-! ### Concrete states used by the witnesses -/

/-- A concrete initial state: standard error open at descriptor 2 on the
console, room for 10 descriptors, no existing files, every path openable. -/
def initState : OSState :=
  { table := [(STDERR_FILENO, Resource.console)], maxFds := 10, files := [],
    pathErr := fun _ => none, errno := 0 }

/-- Like `initState`, but the path "nodir/out.err" lies inside a
non-existent directory, so opening it fails with `ENOENT`. -/
def badPathState : OSState :=
  { table := [(STDERR_FILENO, Resource.console)], maxFds := 10, files := [],
    pathErr := fun q => if q = "nodir/out.err" then some ENOENT else none,
    errno := 0 }

/-- A state holding a saved copy of the console at descriptor 3,
as left behind by a successful `begin_redirect_stderr`'s `dup`. -/
def savedState : OSState :=
  { table := [(3, Resource.console), (STDERR_FILENO, Resource.console)],
    maxFds := 10, files := ["out.err"], pathErr := fun _ => none, errno := 0 }

/-! ### The claims -/

/-- C1: the claim is FALSE of the code (and the code contradicts its own
doc comment "By default (false), truncates the file"): with `append=false`
the resolved oflag is `O_WRONLY | O_CREAT`, whose `O_TRUNC` bit is clear,
so the flags do not include a truncation flag and a pre-existing file is
not truncated. -/
theorem c1_append_false_oflag_has_no_trunc :
    get_oflagBool false = Except.ok (O_WRONLY ||| O_CREAT) ∧
    (O_WRONLY ||| O_CREAT) &&& O_TRUNC = 0 ∧
    0 < O_TRUNC := by
  refine ⟨rfl, by decide, by decide⟩

/-- C2 (counterexample): with `append=true` the resolved oflag is
`O_WRONLY | O_APPEND`, whose `O_CREAT` bit is clear — the flags do not
include a create flag, refuting the claim that they do. -/
theorem c2_counterexample_no_creat_in_append_flags :
    get_oflagBool true = Except.ok (O_WRONLY ||| O_APPEND) ∧
    (O_WRONLY ||| O_APPEND) &&& O_CREAT = 0 ∧
    0 < O_CREAT := by
  refine ⟨rfl, by decide, by decide⟩

/-- C2 (amended): with `append=true` the resolved flags are write-only and
append with no create flag, so when no file exists at `filepath` (the path
being otherwise openable and a descriptor being available) the open FAILS
with `ENOENT` instead of creating the file, and `begin_redirect_stderr`
stops with the open error. -/
theorem c2_append_true_open_fails_on_absent_file (p : String) (s : OSState)
    (r0 : Resource) (hN : lookupFd s.table STDERR_FILENO = some r0)
    (hm1 : freshFd s.table < s.maxFds)
    (hpe : s.pathErr p = none)
    (habs : s.files.contains p = false) :
    get_oflagBool true = Except.ok (O_WRONLY ||| O_APPEND) ∧
    (O_WRONLY ||| O_APPEND) &&& O_CREAT = 0 ∧
    (begin_redirect_stderr p true s).1 =
      Except.error (CError.syscallFailure "open" "begin_redirect_stderr" ENOENT) := by
  have hd' := sysDup_ok s STDERR_FILENO r0 hN hm1
  have ho := sysOpen_absent_no_creat
    { s with table := setFd s.table (freshFd s.table) r0 }
    p (beginOflag true) begin_redirect_mode hpe habs (by decide)
  have hb := begin_open_fail p true s _ _ _ _ hd' (by omega) ho (by omega)
  refine ⟨rfl, by decide, ?_⟩
  rw [hb]

theorem c2_append_true_open_fails_on_absent_file_witness :
    lookupFd initState.table STDERR_FILENO = some Resource.console ∧
    freshFd initState.table < initState.maxFds ∧
    initState.pathErr "out.err" = none ∧
    initState.files.contains "out.err" = false ∧
    (begin_redirect_stderr "out.err" true initState).1 =
      Except.error (CError.syscallFailure "open" "begin_redirect_stderr" ENOENT) :=
  ⟨rfl, by decide, rfl, rfl,
   (c2_append_true_open_fails_on_absent_file "out.err" initState
     Resource.console rfl (by decide) rfl rfl).2.2⟩

/-- C3: `begin_redirect_stderr` stops with an error exactly when one of the
syscalls `dup`, `open`, `dup2` (tried in this order) returns a negative
result; the error names the failing syscall and carries the errno of the
state the stop fired in; and on success the token returned is the result
of the initial `dup`. -/
theorem c3_begin_error_iff (p : String) (a : Bool) (s : OSState) :
    ((∃ e, (begin_redirect_stderr p a s).1 = Except.error e) ↔
      ((beginDup s).1 < 0 ∨
       (¬ (beginDup s).1 < 0 ∧ (beginOpen p a s).1 < 0) ∨
       (¬ (beginDup s).1 < 0 ∧ ¬ (beginOpen p a s).1 < 0 ∧
         (beginDup2 p a s).1 < 0))) ∧
    (∀ e, (begin_redirect_stderr p a s).1 = Except.error e →
      ((beginDup s).1 < 0 ∧
        e = CError.syscallFailure "dup" "begin_redirect_stderr"
              (beginDup s).2.errno) ∨
      ((beginOpen p a s).1 < 0 ∧
        e = CError.syscallFailure "open" "begin_redirect_stderr"
              (beginOpen p a s).2.errno) ∨
      ((beginDup2 p a s).1 < 0 ∧
        e = CError.syscallFailure "dup2" "begin_redirect_stderr"
              (beginDup2 p a s).2.errno)) ∧
    (∀ t, (begin_redirect_stderr p a s).1 = Except.ok t →
      t = (beginDup s).1) := by
  rcases begin_cases p a s with ⟨h0, hb⟩ | ⟨h0, hf, hb⟩ | ⟨h0, hf, hr, hb⟩ |
    ⟨h0, hf, hr, hb⟩ <;> rw [hb] <;> dsimp only
  · refine ⟨⟨fun _ => Or.inl h0, fun _ => ⟨_, rfl⟩⟩, ?_, ?_⟩
    · intro e he
      injection he with he
      exact Or.inl ⟨h0, he.symm⟩
    · intro t ht
      exact absurd ht (by simp)
  · refine ⟨⟨fun _ => Or.inr (Or.inl ⟨h0, hf⟩), fun _ => ⟨_, rfl⟩⟩, ?_, ?_⟩
    · intro e he
      injection he with he
      exact Or.inr (Or.inl ⟨hf, he.symm⟩)
    · intro t ht
      exact absurd ht (by simp)
  · refine ⟨⟨fun _ => Or.inr (Or.inr ⟨h0, hf, hr⟩), fun _ => ⟨_, rfl⟩⟩, ?_, ?_⟩
    · intro e he
      injection he with he
      exact Or.inr (Or.inr ⟨hr, he.symm⟩)
    · intro t ht
      exact absurd ht (by simp)
  · refine ⟨⟨?_, ?_⟩, ?_, ?_⟩
    · rintro ⟨e, he⟩
      exact absurd he (by simp)
    · rintro (h | ⟨_, h⟩ | ⟨_, _, h⟩)
      · exact absurd h h0
      · exact absurd h hf
      · exact absurd h hr
    · intro e he
      exact absurd he (by simp)
    · intro t ht
      injection ht with ht
      exact ht.symm

theorem c3_begin_error_iff_witness :
    (begin_redirect_stderr "out.err" false initState).1 = Except.ok 3 ∧
    (3 : Int) = (beginDup initState).1 :=
  ⟨rfl, (c3_begin_error_iff "out.err" false initState).2.2 3 rfl⟩

/-- C4: round trip — from a Normal state (standard error on the console),
a successful begin moves the standard-error slot to the opened file, and a
successful end on the returned token moves it back to the console, after
which it no longer references any file. -/
theorem c4_round_trip (p : String) (a : Bool) (s : OSState) (tok r : Int)
    (s1 s2 : OSState)
    (hNormal : lookupFd s.table STDERR_FILENO = some Resource.console)
    (hBegin : begin_redirect_stderr p a s = (Except.ok tok, s1))
    (hEnd : end_redirect_stderr tok s1 = (Except.ok r, s2)) :
    lookupFd s1.table STDERR_FILENO =
      some (Resource.file p (beginOflag a) begin_redirect_mode) ∧
    lookupFd s2.table STDERR_FILENO = some Resource.console ∧
    (∀ q fl pm,
      lookupFd s2.table STDERR_FILENO ≠ some (Resource.file q fl pm)) := by
  obtain ⟨htokpos, htokne, htok, hslot⟩ :=
    begin_ok_lookups p a s tok s1 Resource.console hNormal hBegin
  obtain ⟨rr, hneg, hl, hr2, hs2⟩ := end_ok_inv tok s1 r s2 hEnd
  rw [htok] at hl
  injection hl with hl
  subst hl
  subst hs2
  have h2nd : lookupFd
      (sysClose { s1 with table := setFd s1.table STDERR_FILENO Resource.console }
        tok.toNat).table STDERR_FILENO = some Resource.console := by
    dsimp only [sysClose]
    rw [lookupFd_removeFd_ne _ _ _ (Ne.symm htokne)]
    exact lookupFd_setFd_self _ _ _
  refine ⟨hslot, h2nd, ?_⟩
  intro q fl pm hcontra
  rw [h2nd] at hcontra
  injection hcontra with hC
  exact Resource.noConfusion hC

theorem c4_round_trip_witness :
    lookupFd (begin_redirect_stderr "out.err" false initState).2.table
      STDERR_FILENO =
      some (Resource.file "out.err" (beginOflag false) begin_redirect_mode) ∧
    lookupFd (end_redirect_stderr 3
        (begin_redirect_stderr "out.err" false initState).2).2.table
      STDERR_FILENO = some Resource.console ∧
    (∀ q fl pm,
      lookupFd (end_redirect_stderr 3
          (begin_redirect_stderr "out.err" false initState).2).2.table
        STDERR_FILENO ≠ some (Resource.file q fl pm)) :=
  c4_round_trip "out.err" false initState 3 2
    (begin_redirect_stderr "out.err" false initState).2
    (end_redirect_stderr 3 (begin_redirect_stderr "out.err" false initState).2).2
    rfl rfl rfl

/-- C5: on success `end_redirect_stderr` returns the status of the `dup2`
substitution, which is 2 (the standard-error descriptor number), and the
token descriptor is closed only after the substitution, i.e. the final
state is the close applied to the post-substitution state. -/
theorem c5_end_returns_dup2_status (old : Int) (s : OSState) (r : Int)
    (s2 : OSState) (h : end_redirect_stderr old s = (Except.ok r, s2)) :
    r = 2 ∧ (sysDup2 s old STDERR_FILENO).1 = (STDERR_FILENO : Int) ∧
    s2 = sysClose (sysDup2 s old STDERR_FILENO).2 old.toNat := by
  obtain ⟨rr, hneg, hl, hr2, hs2⟩ := end_ok_inv old s r s2 h
  have hd2 := sysDup2_ok s old STDERR_FILENO rr hneg hl
  refine ⟨hr2, ?_, ?_⟩
  · rw [hd2]
  · rw [hs2, hd2]

theorem c5_end_returns_dup2_status_witness :
    (2 : Int) = 2 ∧
    (sysDup2 savedState 3 STDERR_FILENO).1 = (STDERR_FILENO : Int) ∧
    (end_redirect_stderr 3 savedState).2 =
      sysClose (sysDup2 savedState 3 STDERR_FILENO).2 (3 : Int).toNat :=
  c5_end_returns_dup2_status 3 savedState 2
    (end_redirect_stderr 3 savedState).2 rfl

/-- C6: passing a token that is not a valid open descriptor (negative, or
unbound in the descriptor table) makes `end_redirect_stderr` stop with the
`dup2` error carrying errno `EBADF`; the descriptor table — hence both the
token descriptor and the standard-error slot — is left unchanged. -/
theorem c6_end_invalid_token (tok : Int) (s : OSState)
    (hinv : tok < 0 ∨ lookupFd s.table tok.toNat = none) :
    (end_redirect_stderr tok s).1 =
      Except.error (CError.syscallFailure "dup2" "end_redirect_stderr" EBADF) ∧
    (end_redirect_stderr tok s).2.table = s.table ∧
    lookupFd (end_redirect_stderr tok s).2.table STDERR_FILENO =
      lookupFd s.table STDERR_FILENO := by
  have hd := sysDup2_invalid s tok STDERR_FILENO hinv
  have hb := end_fail_eq tok s (-1) { s with errno := EBADF } hd (by omega)
  rw [hb]
  exact ⟨rfl, rfl, rfl⟩

theorem c6_end_invalid_token_witness :
    ((7 : Int) < 0 ∨ lookupFd initState.table (7 : Int).toNat = none) ∧
    (end_redirect_stderr 7 initState).1 =
      Except.error (CError.syscallFailure "dup2" "end_redirect_stderr" EBADF) :=
  ⟨Or.inr rfl, (c6_end_invalid_token 7 initState (Or.inr rfl)).1⟩

/-- C7: if the `open` in `begin_redirect_stderr` fails (the `dup` having
succeeded), the operation stops with an error naming `open` and carrying a
non-zero errno, and the standard-error slot is never substituted. -/
theorem c7_open_failure_no_redirect (p : String) (a : Bool) (s : OSState)
    (hwf : ∀ q e, s.pathErr q = some e → 0 < e)
    (hdok : ¬ (beginDup s).1 < 0)
    (hof : (beginOpen p a s).1 < 0) :
    (begin_redirect_stderr p a s).1 =
      Except.error (CError.syscallFailure "open" "begin_redirect_stderr"
        (beginOpen p a s).2.errno) ∧
    0 < (beginOpen p a s).2.errno ∧
    lookupFd (begin_redirect_stderr p a s).2.table STDERR_FILENO =
      lookupFd s.table STDERR_FILENO := by
  rcases begin_cases p a s with ⟨h0, _⟩ | ⟨h0, hf, hb⟩ | ⟨_, hf, _, _⟩ |
    ⟨_, hf, _, _⟩
  · exact absurd h0 hdok
  · rcases hdc : beginDup s with ⟨d, sA⟩
    obtain ⟨r, hlr, hdval, hsA⟩ := sysDup_ok_inv s STDERR_FILENO d sA hdc
      (by rw [hdc] at hdok; exact hdok)
    have hOc : beginOpen p a s =
        sysOpen sA p (beginOflag a) begin_redirect_mode := by
      rw [beginOpen, hdc]
    rcases hoc2 : sysOpen sA p (beginOflag a) begin_redirect_mode with ⟨fd, s2⟩
    have hOc2 : beginOpen p a s = (fd, s2) := by rw [hOc, hoc2]
    have hfd : fd < 0 := by
      rw [hOc2] at hof
      exact hof
    obtain ⟨htab, hfiles, herr⟩ :=
      sysOpen_fail_inv sA p (beginOflag a) begin_redirect_mode fd s2 hoc2 hfd
    subst hsA
    refine ⟨?_, ?_, ?_⟩
    · rw [hb]
    · rw [hOc2]
      dsimp only
      rcases herr with h | h | h
      · rw [h]; decide
      · rw [h]; decide
      · exact hwf p s2.errno h
    · rw [hb]
      dsimp only
      rw [hOc2]
      dsimp only
      rw [htab]
      dsimp only
      rw [lookupFd_setFd_ne _ _ _ _
        (Ne.symm (freshFd_ne_of_lookup_some _ _ _ hlr))]
  · exact absurd hof hf
  · exact absurd hof hf

theorem c7_open_failure_no_redirect_witness :
    (begin_redirect_stderr "nodir/out.err" false badPathState).1 =
      Except.error (CError.syscallFailure "open" "begin_redirect_stderr"
        (beginOpen "nodir/out.err" false badPathState).2.errno) ∧
    0 < (beginOpen "nodir/out.err" false badPathState).2.errno ∧
    lookupFd (begin_redirect_stderr "nodir/out.err" false badPathState).2.table
      STDERR_FILENO = lookupFd badPathState.table STDERR_FILENO :=
  c7_open_failure_no_redirect "nodir/out.err" false badPathState
    (by
      intro q e h
      by_cases hq : q = "nodir/out.err"
      · rw [badPathState] at h
        dsimp only at h
        rw [if_pos hq] at h
        injection h with h
        rw [← h]
        decide
      · rw [badPathState] at h
        dsimp only at h
        rw [if_neg hq] at h
        exact absurd h (by simp))
    (by decide) (by decide)

/-- C8: `get_oflag(String)` stops with the "Unrecognized mode" error on
every mode string other than "w" and "a", and returns a flag without
stopping on those two. -/
theorem c8_unrecognized_mode_raises (m : String) :
    (m ≠ "w" → m ≠ "a" →
      get_oflagStr m = Except.error (CError.unrecognizedMode m)) ∧
    get_oflagStr "w" = Except.ok (O_WRONLY ||| O_CREAT) ∧
    get_oflagStr "a" = Except.ok (O_WRONLY ||| O_APPEND) := by
  refine ⟨fun hw ha => ?_, rfl, rfl⟩
  unfold get_oflagStr
  rw [if_neg hw, if_neg ha]

theorem c8_unrecognized_mode_raises_witness :
    "r+" ≠ "w" ∧ "r+" ≠ "a" ∧
    get_oflagStr "r+" = Except.error (CError.unrecognizedMode "r+") :=
  ⟨by decide, by decide,
   (c8_unrecognized_mode_raises "r+").1 (by decide) (by decide)⟩

/-- C9: `begin_redirect_stderr` opens the target file with permission bits
`S_IRUSR | S_IWUSR | S_IRGRP | S_IROTH` = 0644 (owner read/write, group
read, other read): after a successful call the standard-error slot holds
an open file description created with permission argument 0644. -/
theorem c9_open_mode_0644 (p : String) (a : Bool) (s : OSState) (tok : Int)
    (s1 : OSState) (r0 : Resource)
    (hN : lookupFd s.table STDERR_FILENO = some r0)
    (h : begin_redirect_stderr p a s = (Except.ok tok, s1)) :
    begin_redirect_mode = 0o644 ∧
    lookupFd s1.table STDERR_FILENO =
      some (Resource.file p (beginOflag a) 0o644) := by
  refine ⟨by decide, ?_⟩
  have hres := (begin_ok_lookups p a s tok s1 r0 hN h).2.2.2
  rw [show (0o644 : Nat) = begin_redirect_mode from by decide]
  exact hres

theorem c9_open_mode_0644_witness :
    begin_redirect_mode = 0o644 ∧
    lookupFd (begin_redirect_stderr "out.err" false initState).2.table
      STDERR_FILENO =
      some (Resource.file "out.err" (beginOflag false) 0o644) :=
  c9_open_mode_0644 "out.err" false initState 3
    (begin_redirect_stderr "out.err" false initState).2 Resource.console
    rfl rfl

/-- C10 (implicit): `get_oflag(bool)` maps each boolean to one of the two
recognized mode strings and returns a flag without stopping, so from
`begin_redirect_stderr` the unrecognized-mode stop is unreachable: every
outcome of `begin_redirect_stderr` is either a success or a syscall
failure. -/
theorem c10_bool_mode_never_invalid (a : Bool) :
    (get_oflagBool a = get_oflagStr "a" ∨ get_oflagBool a = get_oflagStr "w") ∧
    get_oflagBool a = Except.ok (beginOflag a) ∧
    (∀ (p : String) (s : OSState),
      (∃ t, (begin_redirect_stderr p a s).1 = Except.ok t) ∨
      (∃ c en, (begin_redirect_stderr p a s).1 =
        Except.error (CError.syscallFailure c "begin_redirect_stderr" en))) := by
  refine ⟨?_, get_oflagBool_eq a, ?_⟩
  · cases a
    · right; rfl
    · left; rfl
  · intro p s
    rcases begin_cases p a s with ⟨_, hb⟩ | ⟨_, _, hb⟩ | ⟨_, _, _, hb⟩ |
      ⟨_, _, _, hb⟩
    · right
      exact ⟨"dup", _, by rw [hb]⟩
    · right
      exact ⟨"open", _, by rw [hb]⟩
    · right
      exact ⟨"dup2", _, by rw [hb]⟩
    · left
      exact ⟨_, by rw [hb]⟩

end Rdup2
